import Mathlib

/-! STEngine: memory wrappers, controlled-construction hook and platform selection

A shallow embedding of

* `STEngine/Header/Core/Memory/STMemory.h`  (`FMemory`, `DEFAULT_ALIGNMENT`, `MIN_ALIGNMENT`),
* `STEngine/Header/GUI/Widget.h`            (`GUIControlledConstruction`),
* `Source/Runtime/Core/Platform.h`          (the `PLATFORM_*` defaults and the header chain).

Addresses, sizes and byte values are natural numbers.  `size_t` and `SIZE_T` have the same
width on the one platform header the repository carries (`WindowsPlatform.h`: 64 bits under
`_WIN64`, 32 bits otherwise), so passing one for the other is the identity and no reduction
modulo `2^w` occurs in the code embedded here.

Functions that the headers call but do not define (`FPlatformMemory::*`, the C runtime, and
the out-of-line members of `FMemory`) are reached through a handler; every such call is
appended to a call log, so that "calls exactly once, with these arguments" is a statement
about a run.
-/

namespace STEngine

/-! ## Constants of `STMemory.h` -/

/-- An address (`void*`); `0` is the null pointer. -/
abbrev Ptr := Nat

/-- Default allocator alignment (`DEFAULT_ALIGNMENT = 0`). -/
def DEFAULT_ALIGNMENT : Nat := 0

/-- Minimum allocator alignment (`MIN_ALIGNMENT = 8`). -/
def MIN_ALIGNMENT : Nat := 8

/-! ## Calls that leave the headers -/

/-- The functions called by the code of `STMemory.h` and `Widget.h` whose bodies are not in
those headers, each with the arguments of one call. -/
inductive Call where
  /-- Call of `FPlatformMemory::Memmove(Dest, Src, Count)` -/
  | PlatformMemmove (Dest Src : Ptr) (Count : Nat)
  /-- Call of `FPlatformMemory::Memcmp(Buf1, Buf2, Count)` -/
  | PlatformMemcmp (Buf1 Buf2 : Ptr) (Count : Nat)
  /-- Call of `FPlatformMemory::Memset(Dest, Char, Count)` -/
  | PlatformMemset (Dest : Ptr) (Char : Nat) (Count : Nat)
  /-- Call of `FPlatformMemory::Memzero(Dest, Count)` -/
  | PlatformMemzero (Dest : Ptr) (Count : Nat)
  /-- Call of `FPlatformMemory::Memcpy(Dest, Src, Count)` -/
  | PlatformMemcpy (Dest Src : Ptr) (Count : Nat)
  /-- Call of `FPlatformMemory::BigBlockMemcpy(Dest, Src, Count)` -/
  | PlatformBigBlockMemcpy (Dest Src : Ptr) (Count : Nat)
  /-- Call of `FPlatformMemory::StreamingMemcpy(Dest, Src, Count)` -/
  | PlatformStreamingMemcpy (Dest Src : Ptr) (Count : Nat)
  /-- Call of `FPlatformMemory::Memswap(Ptr1, Ptr2, Size)` -/
  | PlatformMemswap (Ptr1 Ptr2 : Ptr) (Size : Nat)
  /-- Call of `::malloc(Size)` -/
  | CrtMalloc (Size : Nat)
  /-- Call of `::free(Ptr)` -/
  | CrtFree (P : Ptr)
  /-- Call of `FMemory::Malloc(Count, Alignment)` (declared in `STMemory.h`, no body) -/
  | Malloc (Count Alignment : Nat)
  /-- Call of `FMemory::Free(Original)` (declared in `STMemory.h`, no body) -/
  | Free (Original : Ptr)
  /-- Call of `FMemory::GetAllocSize(Original)` (declared in `STMemory.h`, no body) -/
  | GetAllocSize (Original : Ptr)
  /-- Call of `FMemory::MallocQuantizeSize(Size, Alignment)` (declared, no body) -/
  | MallocQuantizeSize (Size Alignment : Nat)
  deriving DecidableEq, Repr

/-- The C++ return type of each call: `void*` is `Ptr`, `int32` is `Int`, `void` is `Unit`. -/
@[reducible] def Call.Ret : Call → Type
  | .PlatformMemmove _ _ _ => Ptr
  | .PlatformMemcmp _ _ _ => Int
  | .PlatformMemset _ _ _ => Ptr
  | .PlatformMemzero _ _ => Ptr
  | .PlatformMemcpy _ _ _ => Ptr
  | .PlatformBigBlockMemcpy _ _ _ => Ptr
  | .PlatformStreamingMemcpy _ _ _ => Ptr
  | .PlatformMemswap _ _ _ => Unit
  | .CrtMalloc _ => Ptr
  | .CrtFree _ => Unit
  | .Malloc _ _ => Ptr
  | .Free _ => Unit
  | .GetAllocSize _ => Nat
  | .MallocQuantizeSize _ _ => Nat

/-- An implementation of the called functions over a state `σ`: what a call returns and the
state it leaves. -/
abbrev Handler (σ : Type) := (c : Call) → σ → Call.Ret c × σ

/-- A run in progress: the calls made so far (oldest first) and the current state. -/
structure Machine (σ : Type) where
  Calls : List Call
  State : σ

/-- A computation that may call out: from a machine to a result and the machine after. -/
abbrev Exec (σ : Type) (α : Type) := Machine σ → α × Machine σ

/-- Perform one call: log it, let the handler act on the state, and hand back its result. -/
def callOut {σ : Type} (h : Handler σ) (c : Call) : Exec σ (Call.Ret c) :=
  fun m => ((h c m.State).1, { Calls := m.Calls ++ [c], State := (h c m.State).2 })

/-! ## `struct FMemory` (`STMemory.h`) -/

namespace FMemory

variable {σ : Type}

/-- Source: `static void* Memmove(void* Dest, const void* Src, SIZE_T Count)` -/
def Memmove (h : Handler σ) (Dest Src : Ptr) (Count : Nat) : Exec σ Ptr :=
  callOut h (.PlatformMemmove Dest Src Count)

/-- Source: `static int32 Memcmp(const void* Buf1, const void* Buf2, SIZE_T Count)` -/
def Memcmp (h : Handler σ) (Buf1 Buf2 : Ptr) (Count : Nat) : Exec σ Int :=
  callOut h (.PlatformMemcmp Buf1 Buf2 Count)

/-- Source: `static void* Memset(void* Dest, uint8 Char, SIZE_T Count)` -/
def Memset (h : Handler σ) (Dest : Ptr) (Char : Nat) (Count : Nat) : Exec σ Ptr :=
  callOut h (.PlatformMemset Dest Char Count)

/-- Source: `static void* Memzero(void* Dest, SIZE_T Count)` -/
def Memzero (h : Handler σ) (Dest : Ptr) (Count : Nat) : Exec σ Ptr :=
  callOut h (.PlatformMemzero Dest Count)

/-- Source: `static void* Memcpy(void* Dest, const void* Src, SIZE_T Count)` -/
def Memcpy (h : Handler σ) (Dest Src : Ptr) (Count : Nat) : Exec σ Ptr :=
  callOut h (.PlatformMemcpy Dest Src Count)

/-- Source: `static void* BigBlockMemcpy(void* Dest, const void* Src, SIZE_T Count)` -/
def BigBlockMemcpy (h : Handler σ) (Dest Src : Ptr) (Count : Nat) : Exec σ Ptr :=
  callOut h (.PlatformBigBlockMemcpy Dest Src Count)

/-- Source: `static void* StreamingMemcpy(void* Dest, const void* Src, SIZE_T Count)` -/
def StreamingMemcpy (h : Handler σ) (Dest Src : Ptr) (Count : Nat) : Exec σ Ptr :=
  callOut h (.PlatformStreamingMemcpy Dest Src Count)

/-- Source: `static void Memswap(void* Ptr1, void* Ptr2, SIZE_T Size)` -/
def Memswap (h : Handler σ) (Ptr1 Ptr2 : Ptr) (Size : Nat) : Exec σ Unit :=
  callOut h (.PlatformMemswap Ptr1 Ptr2 Size)

/-- Source: `template<class T> static void MemSet(T& Src, uint8 ValueToSet)`, whose body is
`FMemory::Memset(&Src, ValueToSet, sizeof(T))`.  The object is given by its address `&Src`
and by `sizeof(T)`; the pointer `Memset` returns is dropped. -/
def MemSet (h : Handler σ) (addrSrc sizeofT : Nat) (ValueToSet : Nat) : Exec σ Unit :=
  fun m => ((), (Memset h addrSrc ValueToSet sizeofT m).2)

/-- Source: `template<class T> static void MemZero(T& Src)`, whose body is
`FMemory::Memset(&Src, 0, sizeof(T))`. -/
def MemZero (h : Handler σ) (addrSrc sizeofT : Nat) : Exec σ Unit :=
  fun m => ((), (Memset h addrSrc 0 sizeofT m).2)

/-- Source: `template<class T> static void MemCopy(T& Dest, const T& Src)`, whose body is
`FMemory::Memcpy(&Dest, &Src, sizeof(T))`. -/
def MemCopy (h : Handler σ) (addrDest addrSrc sizeofT : Nat) : Exec σ Unit :=
  fun m => ((), (Memcpy h addrDest addrSrc sizeofT m).2)

/-- Source: `static void* SystemMalloc(SIZE_T Size)`: `::malloc(Size)`. -/
def SystemMalloc (h : Handler σ) (Size : Nat) : Exec σ Ptr :=
  callOut h (.CrtMalloc Size)

/-- Source: `static void SystemFree(void* Ptr)`: `::free(Ptr)`. -/
def SystemFree (h : Handler σ) (P : Ptr) : Exec σ Unit :=
  callOut h (.CrtFree P)

/-- A call of the declared member `static void* Malloc(SIZE_T Count, uint32 Alignment)`. -/
def Malloc (h : Handler σ) (Count : Nat) (Alignment : Nat) : Exec σ Ptr :=
  callOut h (.Malloc Count Alignment)

/-- A call of the declared member `static void Free(void* Original)`. -/
def Free (h : Handler σ) (Original : Ptr) : Exec σ Unit :=
  callOut h (.Free Original)

/-- A call of the declared member `static SIZE_T GetAllocSize(void* Original)`. -/
def GetAllocSize (h : Handler σ) (Original : Ptr) : Exec σ Nat :=
  callOut h (.GetAllocSize Original)

/-- A call of the declared member
`static SIZE_T MallocQuantizeSize(SIZE_T Size, uint32 Alignment = DEFAULT_ALIGNMENT)`. -/
def MallocQuantizeSize (h : Handler σ) (Size : Nat) (Alignment : Nat) : Exec σ Nat :=
  callOut h (.MallocQuantizeSize Size Alignment)

end FMemory

/-! ## `class GUIControlledConstruction` (`Widget.h`) -/

/-- Access levels of C++ class members. -/
inductive Access where
  | Private
  | Protected
  | Public
  deriving DecidableEq, Repr

/-- The members `GUIControlledConstruction` declares. -/
inductive Member where
  | Constructor
  | Destructor
  | OperatorAssign
  | OperatorNew
  | OperatorDelete
  deriving DecidableEq, Repr

/-- One line of a class body: an access label (`public:`, `private:`) or a member. -/
inductive ClassItem where
  | Label (a : Access)
  | Decl (d : Member)
  deriving DecidableEq, Repr

namespace GUIControlledConstruction

/-- The body of `class GUICORE_API GUIControlledConstruction`, top to bottom. -/
def Body : List ClassItem :=
  [ .Label .Public,
    .Decl .Constructor,
    .Decl .Destructor,
    .Label .Private,
    .Decl .OperatorAssign,
    .Decl .OperatorNew,
    .Label .Public,
    .Decl .OperatorDelete ]

/-- Access of a member in a class body: the most recent label above it; `cur` is the access
in force at the start (`private` for a `class`). -/
def accessIn : List ClassItem → Access → Member → Option Access
  | [], _, _ => none
  | .Label a :: rest, _, d => accessIn rest a d
  | .Decl e :: rest, cur, d => if e = d then some cur else accessIn rest cur d

/-- Access of a member of `GUIControlledConstruction` (declared with the `class` key). -/
def accessOf (d : Member) : Option Access := accessIn Body .Private d

/-- Whether code outside the class (neither a member nor a friend) may name the member. -/
def callableFromOutside (d : Member) : Bool := accessOf d == some .Public

variable {σ : Type}

/-- Source: `void operator= (const GUIControlledConstruction& Other){}`: objects are given by their
addresses; the body is empty. -/
def operatorAssign (_This _Other : Ptr) : Exec σ Unit :=
  fun m => ((), m)

/-- Source: `void* operator new (const size_t InSize) { return FMemory::Malloc(InSize); }`; the
omitted second argument is the default `Alignment = DEFAULT_ALIGNMENT`. -/
def operatorNew (h : Handler σ) (InSize : Nat) : Exec σ Ptr :=
  FMemory.Malloc h InSize DEFAULT_ALIGNMENT

/-- Source: `void operator delete(void* mem) { FMemory::Free(mem); }` -/
def operatorDelete (h : Handler σ) (mem : Ptr) : Exec σ Unit :=
  FMemory.Free h mem

end GUIControlledConstruction

/-! ## The memory subsystem and its platform backend

Neither `FPlatformMemory` nor the bodies of `FMemory::Malloc`, `Free`, `GetAllocSize` and
`MallocQuantizeSize` are part of the headers above.  The definitions of this section are
written from the specification of the subsystem and serve as the handler of those calls. -/

/-- Byte memory: the byte stored at each address. -/
abbrev Memory := Ptr → Nat

namespace FPlatformMemory

/-- Modelled from the spec: the body of `FPlatformMemory::Memset`, which no header defines.
"Fill (broadcast one byte value across N bytes)"; the pointer handed back is `Dest`. -/
def Memset (mem : Memory) (Dest : Ptr) (Char : Nat) (Count : Nat) : Ptr × Memory :=
  (Dest, fun a => if Dest ≤ a ∧ a < Dest + Count then Char else mem a)

/-- Modelled from the spec: the body of `FPlatformMemory::Memzero`, which no header defines.
"Zero (Fill with 0)". -/
def Memzero (mem : Memory) (Dest : Ptr) (Count : Nat) : Ptr × Memory :=
  Memset mem Dest 0 Count

/-- Modelled from the spec: the body of `FPlatformMemory::Memcpy`, which no header defines.
"Copy (non-overlapping only; overlapping regions are undefined for this variant)": byte `i`
of the destination receives byte `i` of the source; the pointer handed back is `Dest`. -/
def Memcpy (mem : Memory) (Dest Src : Ptr) (Count : Nat) : Ptr × Memory :=
  (Dest, fun a => if Dest ≤ a ∧ a < Dest + Count then mem (Src + (a - Dest)) else mem a)

/-- Modelled from the spec: the body of `FPlatformMemory::Memmove`, which no header defines.
"Move (overlap-safe copy)": every destination byte receives the source byte as it was
before the call. -/
def Memmove (mem : Memory) (Dest Src : Ptr) (Count : Nat) : Ptr × Memory :=
  (Dest, fun a => if Dest ≤ a ∧ a < Dest + Count then mem (Src + (a - Dest)) else mem a)

/-- Modelled from the spec: the body of `FPlatformMemory::BigBlockMemcpy`, which no header
defines.  One of the "two additional copy variants tuned for large transfers", which are
"functionally identical to Copy but with different performance profiles". -/
def BigBlockMemcpy (mem : Memory) (Dest Src : Ptr) (Count : Nat) : Ptr × Memory :=
  Memcpy mem Dest Src Count

/-- Modelled from the spec: the body of `FPlatformMemory::StreamingMemcpy`, which no header
defines.  The other of the two copy variants "functionally identical to Copy". -/
def StreamingMemcpy (mem : Memory) (Dest Src : Ptr) (Count : Nat) : Ptr × Memory :=
  Memcpy mem Dest Src Count

/-- Modelled from the spec: the body of `FPlatformMemory::Memcmp`, which no header defines.
"Compare (byte-wise ordering, returns negative/zero/positive)": the difference of the first
pair of bytes that differ, `0` when there is none. -/
def Memcmp (mem : Memory) (Buf1 Buf2 : Ptr) : Nat → Int
  | 0 => 0
  | n + 1 =>
    if mem Buf1 = mem Buf2 then Memcmp mem (Buf1 + 1) (Buf2 + 1) n
    else (mem Buf1 : Int) - (mem Buf2 : Int)

/-- Modelled from the spec: the body of `FPlatformMemory::Memswap`, which no header defines.
"Swap (exchange N bytes between two distinct, non-overlapping buffers)". -/
def Memswap (mem : Memory) (Ptr1 Ptr2 : Ptr) (Size : Nat) : Memory :=
  fun a =>
    if Ptr1 ≤ a ∧ a < Ptr1 + Size then mem (Ptr2 + (a - Ptr1))
    else if Ptr2 ≤ a ∧ a < Ptr2 + Size then mem (Ptr1 + (a - Ptr2))
    else mem a

end FPlatformMemory

/-- An allocated block of the memory subsystem: "an opaque handle/address, its requested
size, its actual usable size, and its effective alignment". -/
structure AllocatedBlock where
  Address : Ptr
  RequestedSize : Nat
  UsableSize : Nat
  Alignment : Nat
  deriving DecidableEq, Repr

/-- State of the memory subsystem: the bytes of memory and the live blocks, newest first. -/
structure Subsystem where
  Bytes : Memory
  Blocks : List AllocatedBlock

/-- The size-class step tables of the allocator, one per alignment argument.  The spec
leaves the steps to the implementer, so they are a parameter of the model. -/
abbrev SizeClassTable := Nat → List Nat

namespace MemorySubsystem

/-- Modelled from the spec: the alignment policy inside `FMemory::Malloc`.  "Default policy
maps size ≥ 16 bytes → 16-byte alignment, size < 16 bytes → 8-byte (minimum) alignment;
explicit alignment requests below the minimum are promoted to the minimum." -/
def resolveAlignment (Size Alignment : Nat) : Nat :=
  if Alignment = DEFAULT_ALIGNMENT then (if 16 ≤ Size then 16 else MIN_ALIGNMENT)
  else max Alignment MIN_ALIGNMENT

/-- The least step of a table that is at least `Size`, if the table has one. -/
def nextStep : List Nat → Nat → Option Nat
  | [], _ => none
  | t :: ts, Size =>
    match nextStep ts Size with
    | none => if Size ≤ t then some t else none
    | some b => if Size ≤ t ∧ t < b then some t else some b

/-- Modelled from the spec: the body of `FMemory::MallocQuantizeSize`, which `STMemory.h`
only declares.  "Quantization: rounding a requested size up to the next value in a
predetermined step table"; a size above every step of the table is returned as it is. -/
def QuantizeSize (T : SizeClassTable) (Size Alignment : Nat) : Nat :=
  (nextStep (T Alignment) Size).getD Size

/-- Round `x` up to a multiple of `a`. -/
def Align (x a : Nat) : Nat := (x + a - 1) / a * a

/-- The first address above every live block (and above the null address). -/
def highWater : List AllocatedBlock → Nat
  | [] => 1
  | b :: bs => max (b.Address + b.UsableSize + 1) (highWater bs)

/-- Modelled from the spec: the body of `FMemory::Malloc`, which `STMemory.h` only
declares.  `Allocate(size, alignment)` "resolves DEFAULT via AlignmentPolicy" and returns a
block whose address is a multiple of the resolved alignment and whose usable size is the
quantized size; the block is live from now on.  The spec does not say where blocks are
placed: the model puts a new block at the first suitably aligned address above all live
blocks, and, having no bound on addresses, never runs out of memory.  The comment at
`DEFAULT_ALIGNMENT` adds that an allocator without alignment support ignores the alignment;
the spec states the policy without that exception and the model always honours it. -/
def Allocate (T : SizeClassTable) (s : Subsystem) (Size Alignment : Nat) : Ptr × Subsystem :=
  let a := resolveAlignment Size Alignment
  let addr := Align (highWater s.Blocks) a
  (addr, { s with Blocks :=
    { Address := addr, RequestedSize := Size,
      UsableSize := QuantizeSize T Size Alignment, Alignment := a } :: s.Blocks })

/-- Modelled from the spec: the body of `FMemory::Free`, which `STMemory.h` only declares.
`Release(block)`: "no-op on null"; otherwise the block at that address stops being live. -/
def Release (s : Subsystem) (Original : Ptr) : Subsystem :=
  if Original = 0 then s
  else { s with Blocks := s.Blocks.filter (fun b => decide (b.Address ≠ Original)) }

/-- Modelled from the spec: the body of `FMemory::GetAllocSize`, which `STMemory.h` only
declares.  `QuerySize(block)`: "returns the size recorded at allocation time; undefined for
handles not produced by this subsystem" (the model answers `0` for those). -/
def QuerySize (s : Subsystem) (Original : Ptr) : Nat :=
  match s.Blocks.find? (fun b => decide (b.Address = Original)) with
  | some b => b.UsableSize
  | none => 0

/-- The live blocks' addresses. -/
def liveAddresses (s : Subsystem) : List Ptr := s.Blocks.map (fun b => b.Address)

end MemorySubsystem

/-- The C runtime heap behind `::malloc` and `::free`, which the spec does not describe:
a parameter of the handler. -/
structure CRuntime where
  malloc : Nat → Subsystem → Ptr × Subsystem
  free : Ptr → Subsystem → Subsystem

/-- The handler that answers every call with the memory subsystem and platform backend of
this section (and the C runtime it is given). -/
def subsystemHandler (crt : CRuntime) (T : SizeClassTable) : Handler Subsystem
  | .PlatformMemmove Dest Src Count, s =>
    ((FPlatformMemory.Memmove s.Bytes Dest Src Count).1,
      { s with Bytes := (FPlatformMemory.Memmove s.Bytes Dest Src Count).2 })
  | .PlatformMemcmp Buf1 Buf2 Count, s => (FPlatformMemory.Memcmp s.Bytes Buf1 Buf2 Count, s)
  | .PlatformMemset Dest Char Count, s =>
    ((FPlatformMemory.Memset s.Bytes Dest Char Count).1,
      { s with Bytes := (FPlatformMemory.Memset s.Bytes Dest Char Count).2 })
  | .PlatformMemzero Dest Count, s =>
    ((FPlatformMemory.Memzero s.Bytes Dest Count).1,
      { s with Bytes := (FPlatformMemory.Memzero s.Bytes Dest Count).2 })
  | .PlatformMemcpy Dest Src Count, s =>
    ((FPlatformMemory.Memcpy s.Bytes Dest Src Count).1,
      { s with Bytes := (FPlatformMemory.Memcpy s.Bytes Dest Src Count).2 })
  | .PlatformBigBlockMemcpy Dest Src Count, s =>
    ((FPlatformMemory.BigBlockMemcpy s.Bytes Dest Src Count).1,
      { s with Bytes := (FPlatformMemory.BigBlockMemcpy s.Bytes Dest Src Count).2 })
  | .PlatformStreamingMemcpy Dest Src Count, s =>
    ((FPlatformMemory.StreamingMemcpy s.Bytes Dest Src Count).1,
      { s with Bytes := (FPlatformMemory.StreamingMemcpy s.Bytes Dest Src Count).2 })
  | .PlatformMemswap Ptr1 Ptr2 Size, s =>
    ((), { s with Bytes := FPlatformMemory.Memswap s.Bytes Ptr1 Ptr2 Size })
  | .CrtMalloc Size, s => crt.malloc Size s
  | .CrtFree P, s => ((), crt.free P s)
  | .Malloc Count Alignment, s => MemorySubsystem.Allocate T s Count Alignment
  | .Free Original, s => ((), MemorySubsystem.Release s Original)
  | .GetAllocSize Original, s => (MemorySubsystem.QuerySize s Original, s)
  | .MallocQuantizeSize Size Alignment, s => (MemorySubsystem.QuantizeSize T Size Alignment, s)

/-- A C runtime that hands out the null pointer and keeps the state, for concrete runs. -/
def idleCRuntime : CRuntime := { malloc := fun _ s => (0, s), free := fun _ s => s }

/-- A small step table for concrete runs: 8, 16, 32 and 64 for every alignment. -/
def exampleTable : SizeClassTable := fun _ => [8, 16, 32, 64]

/-- A subsystem with zeroed memory and no live block. -/
def emptySubsystem : Subsystem := { Bytes := fun _ => 0, Blocks := [] }

/-- A fresh run over a state: no call made yet. -/
def Machine.start {σ : Type} (s : σ) : Machine σ := { Calls := [], State := s }

/-! ## `Platform.h`: the `PLATFORM_*` defaults and the platform-header chain -/

/-- The `PLATFORM_*` macros as the build defines them before `Platform.h` is read: `none`
for a macro that is not defined, `some v` for one defined with the integer value `v`. -/
structure PlatformDefines where
  PLATFORM_WINDOWS : Option Int
  PLATFORM_XBOXONE : Option Int
  PLATFORM_MAC : Option Int
  PLATFORM_PS4 : Option Int
  PLATFORM_IOS : Option Int
  PLATFORM_ANDROID : Option Int
  PLATFORM_ANDROIDGL4 : Option Int
  PLATFORM_ANDROIDES31 : Option Int
  PLATFORM_WINRT : Option Int
  PLATFORM_WINRT_ARM : Option Int
  PLATFORM_APPLE : Option Int
  PLATFORM_HTML5 : Option Int
  PLATFORM_LINUX : Option Int
  deriving DecidableEq, Repr

/-- An include directive that preprocessing reaches: `#include <name>` or `#include "path"`. -/
inductive Include where
  | Angle (name : String)
  | Quoted (path : String)
  deriving DecidableEq, Repr

/-- The block `#if !defined(X)` / `#define X 0` / `#endif`: the value of `X` afterwards. -/
def defaultZero (X : Option Int) : Int :=
  match X with
  | none => 0
  | some v => v

/-- Lines 3 to 69 of `Platform.h`: the thirteen defaults, the `PLATFORM_APPLE` include and
the `#if` / `#elif` chain.  The result is the list of include directives reached, in order,
or the message of the `#error` directive. -/
def Platform_h (d : PlatformDefines) : Except String (List Include) :=
  let PLATFORM_WINDOWS := defaultZero d.PLATFORM_WINDOWS
  let PLATFORM_XBOXONE := defaultZero d.PLATFORM_XBOXONE
  let PLATFORM_MAC := defaultZero d.PLATFORM_MAC
  let PLATFORM_PS4 := defaultZero d.PLATFORM_PS4
  let PLATFORM_IOS := defaultZero d.PLATFORM_IOS
  let PLATFORM_ANDROID := defaultZero d.PLATFORM_ANDROID
  let _PLATFORM_ANDROIDGL4 := defaultZero d.PLATFORM_ANDROIDGL4
  let _PLATFORM_ANDROIDES31 := defaultZero d.PLATFORM_ANDROIDES31
  let PLATFORM_WINRT := defaultZero d.PLATFORM_WINRT
  let PLATFORM_WINRT_ARM := defaultZero d.PLATFORM_WINRT_ARM
  let PLATFORM_APPLE := defaultZero d.PLATFORM_APPLE
  let PLATFORM_HTML5 := defaultZero d.PLATFORM_HTML5
  let PLATFORM_LINUX := defaultZero d.PLATFORM_LINUX
  let head : List Include := if PLATFORM_APPLE ≠ 0 then [.Angle "stddef.h"] else []
  if PLATFORM_WINDOWS ≠ 0 then .ok (head ++ [.Quoted "Windows/WIndowsPlatform.h"])
  else if PLATFORM_PS4 ≠ 0 then .ok (head ++ [.Quoted "PS4/PS4Platform.h"])
  else if PLATFORM_XBOXONE ≠ 0 then .ok (head ++ [.Quoted "XboxOne/XboxOnePlatform.h"])
  else if PLATFORM_MAC ≠ 0 then .ok (head ++ [.Quoted "Mac/MacPlatform.h"])
  else if PLATFORM_IOS ≠ 0 then .ok (head ++ [.Quoted "IOS/IOSPlatform.h"])
  else if PLATFORM_ANDROID ≠ 0 then .ok (head ++ [.Quoted "Android/AndroidPlatform.h"])
  else if PLATFORM_WINRT_ARM ≠ 0 then .ok (head ++ [.Quoted "WinRT/WinRTARMPlatform.h"])
  else if PLATFORM_WINRT ≠ 0 then .ok (head ++ [.Quoted "WinRT/WinRTPlatform.h"])
  else if PLATFORM_HTML5 ≠ 0 then .ok (head ++ [.Quoted "HTML5/HTML5Platform.h"])
  else if PLATFORM_LINUX ≠ 0 then .ok (head ++ [.Quoted "Linux/LinuxPlatform.h"])
  else .error "Unknown Compiler"

/-- The platform headers among the directives reached: the quoted includes. -/
def platformHeaders : List Include → List String
  | [] => []
  | .Angle _ :: rest => platformHeaders rest
  | .Quoted path :: rest => path :: platformHeaders rest

/-- The ten selecting flags in the stated order WINDOWS, PS4, XBOXONE, MAC, IOS, ANDROID,
WINRT_ARM, WINRT, HTML5, LINUX, each with the value it has when an undefined flag counts as
`0`, and the header that belongs to it. -/
def selectionOrder (d : PlatformDefines) : List (Int × String) :=
  [ (d.PLATFORM_WINDOWS.getD 0, "Windows/WIndowsPlatform.h"),
    (d.PLATFORM_PS4.getD 0, "PS4/PS4Platform.h"),
    (d.PLATFORM_XBOXONE.getD 0, "XboxOne/XboxOnePlatform.h"),
    (d.PLATFORM_MAC.getD 0, "Mac/MacPlatform.h"),
    (d.PLATFORM_IOS.getD 0, "IOS/IOSPlatform.h"),
    (d.PLATFORM_ANDROID.getD 0, "Android/AndroidPlatform.h"),
    (d.PLATFORM_WINRT_ARM.getD 0, "WinRT/WinRTARMPlatform.h"),
    (d.PLATFORM_WINRT.getD 0, "WinRT/WinRTPlatform.h"),
    (d.PLATFORM_HTML5.getD 0, "HTML5/HTML5Platform.h"),
    (d.PLATFORM_LINUX.getD 0, "Linux/LinuxPlatform.h") ]

/-- The header of the first flag of a list whose value is not zero. -/
def firstNonZero : List (Int × String) → Option String
  | [] => none
  | (v, header) :: rest => if v ≠ 0 then some header else firstNonZero rest

/-- The stated selection rule: the header of the first non-zero flag in the fixed order,
and a build rejected with `Unknown Compiler` when there is none. -/
def selectedBySpec (d : PlatformDefines) : Except String (List String) :=
  match firstNonZero (selectionOrder d) with
  | some header => .ok [header]
  | none => .error "Unknown Compiler"

/-- The platform headers of a run of `Platform.h`, or its error. -/
def selectedByPlatform_h (d : PlatformDefines) : Except String (List String) :=
  match Platform_h d with
  | .ok incs => .ok (platformHeaders incs)
  | .error msg => .error msg

/-- No flag defined at all. -/
def noDefines : PlatformDefines :=
  { PLATFORM_WINDOWS := none, PLATFORM_XBOXONE := none, PLATFORM_MAC := none,
    PLATFORM_PS4 := none, PLATFORM_IOS := none, PLATFORM_ANDROID := none,
    PLATFORM_ANDROIDGL4 := none, PLATFORM_ANDROIDES31 := none, PLATFORM_WINRT := none,
    PLATFORM_WINRT_ARM := none, PLATFORM_APPLE := none, PLATFORM_HTML5 := none,
    PLATFORM_LINUX := none }

end STEngine

/-! # Theorems -/

namespace STEngine

/-! ## Helper lemmas -/

theorem defaultZero_eq_getD (X : Option Int) : defaultZero X = X.getD 0 := by
  cases X <;> rfl

theorem platformHeaders_append_quoted (head : List Include) (path : String)
    (hh : platformHeaders head = []) :
    platformHeaders (head ++ [.Quoted path]) = [path] := by
  induction head with
  | nil => rfl
  | cons x xs ih =>
    cases x with
    | Angle n => simpa [platformHeaders] using ih (by simpa [platformHeaders] using hh)
    | Quoted q => simp [platformHeaders] at hh

/-- The chain of `Platform.h` picks the header the fixed order prescribes. -/
theorem selectedByPlatform_h_eq_spec (d : PlatformDefines) :
    selectedByPlatform_h d = selectedBySpec d := by
  rcases d with ⟨w, x, m, p, i, a, g4, e31, wr, wra, ap, h5, l⟩
  simp only [selectedByPlatform_h, selectedBySpec, Platform_h, selectionOrder, firstNonZero,
    defaultZero_eq_getD]
  generalize w.getD 0 = w
  generalize x.getD 0 = x
  generalize m.getD 0 = m
  generalize p.getD 0 = p
  generalize i.getD 0 = i
  generalize a.getD 0 = a
  generalize wr.getD 0 = wr
  generalize wra.getD 0 = wra
  generalize h5.getD 0 = h5
  generalize l.getD 0 = l
  generalize ap.getD 0 = ap
  have hq : ∀ path, platformHeaders
      ((if ap ≠ 0 then [Include.Angle "stddef.h"] else []) ++ [.Quoted path]) = [path] := by
    intro path
    apply platformHeaders_append_quoted
    split_ifs <;> rfl
  by_cases hw : w = 0 <;>
    simp only [hw, ne_eq, not_true_eq_false, not_false_eq_true, if_true, if_false, hq]
  by_cases hp : p = 0 <;>
    simp only [hp, ne_eq, not_true_eq_false, not_false_eq_true, if_true, if_false, hq]
  by_cases hx : x = 0 <;>
    simp only [hx, ne_eq, not_true_eq_false, not_false_eq_true, if_true, if_false, hq]
  by_cases hm : m = 0 <;>
    simp only [hm, ne_eq, not_true_eq_false, not_false_eq_true, if_true, if_false, hq]
  by_cases hi : i = 0 <;>
    simp only [hi, ne_eq, not_true_eq_false, not_false_eq_true, if_true, if_false, hq]
  by_cases ha : a = 0 <;>
    simp only [ha, ne_eq, not_true_eq_false, not_false_eq_true, if_true, if_false, hq]
  by_cases hwra : wra = 0 <;>
    simp only [hwra, ne_eq, not_true_eq_false, not_false_eq_true, if_true, if_false, hq]
  by_cases hwr : wr = 0 <;>
    simp only [hwr, ne_eq, not_true_eq_false, not_false_eq_true, if_true, if_false, hq]
  by_cases hh5 : h5 = 0 <;>
    simp only [hh5, ne_eq, not_true_eq_false, not_false_eq_true, if_true, if_false, hq]
  by_cases hl : l = 0 <;>
    simp only [hl, ne_eq, not_true_eq_false, not_false_eq_true, if_true, if_false, hq]

theorem firstNonZero_eq_none_iff (l : List (Int × String)) :
    firstNonZero l = none ↔ ∀ p ∈ l, p.1 = 0 := by
  induction l with
  | nil => simp [firstNonZero]
  | cons p ps ih =>
    rcases p with ⟨v, header⟩
    by_cases hv : v = 0
    · simp [firstNonZero, hv, ih]
    · simp [firstNonZero, hv]

theorem selectedBySpec_error_iff (d : PlatformDefines) (msg : String) :
    selectedBySpec d = .error msg ↔
      (msg = "Unknown Compiler" ∧ firstNonZero (selectionOrder d) = none) := by
  unfold selectedBySpec
  cases h : firstNonZero (selectionOrder d) with
  | none => simp [eq_comm]
  | some header => simp

theorem Platform_h_error_iff (d : PlatformDefines) (msg : String) :
    Platform_h d = .error msg ↔ selectedByPlatform_h d = .error msg := by
  unfold selectedByPlatform_h
  cases h : Platform_h d with
  | ok incs => simp
  | error e => simp

/-! ### Size classes -/

namespace MemorySubsystem

theorem nextStep_some {ts : List Nat} {Size b : Nat} (h : nextStep ts Size = some b) :
    b ∈ ts ∧ Size ≤ b ∧ ∀ t ∈ ts, Size ≤ t → b ≤ t := by
  induction ts generalizing b with
  | nil => simp [nextStep] at h
  | cons t ts ih =>
    unfold nextStep at h
    cases hr : nextStep ts Size with
    | none =>
      rw [hr] at h
      have hnone : ∀ u ∈ ts, Size ≤ u → False := by
        intro u hu hle
        clear h
        induction ts with
        | nil => simp at hu
        | cons v vs ihv =>
          unfold nextStep at hr
          cases hv : nextStep vs Size with
          | none =>
            rw [hv] at hr
            by_cases hsv : Size ≤ v
            · simp [hsv] at hr
            · rcases List.mem_cons.1 hu with rfl | hu
              · exact hsv hle
              · exact ihv (fun {_} hb => absurd (hv ▸ hb) (by simp)) hv hu
          | some c =>
            rw [hv] at hr
            by_cases hc : Size ≤ v ∧ v < c <;> simp [hc] at hr
      by_cases hst : Size ≤ t
      · simp only [hst, if_true, Option.some.injEq] at h
        subst h
        refine ⟨List.mem_cons_self _ _, hst, ?_⟩
        intro u hu hle
        rcases List.mem_cons.1 hu with rfl | hu
        · exact le_rfl
        · exact absurd hle (fun hle => hnone u hu hle)
      · simp [hst] at h
    | some c =>
      rw [hr] at h
      obtain ⟨hc1, hc2, hc3⟩ := ih hr
      by_cases hst : Size ≤ t ∧ t < c
      · simp only [hst, and_self, if_true, Option.some.injEq] at h
        subst h
        refine ⟨List.mem_cons_self _ _, hst.1, ?_⟩
        intro u hu hle
        rcases List.mem_cons.1 hu with rfl | hu
        · exact le_rfl
        · exact le_of_lt (lt_of_lt_of_le hst.2 (hc3 u hu hle))
      · simp only [hst, if_false, Option.some.injEq] at h
        subst h
        refine ⟨List.mem_cons_of_mem _ hc1, hc2, ?_⟩
        intro u hu hle
        rcases List.mem_cons.1 hu with rfl | hu
        · by_contra hlt
          exact hst ⟨hle, not_le.1 hlt⟩
        · exact hc3 u hu hle

theorem nextStep_none {ts : List Nat} {Size : Nat} (h : nextStep ts Size = none) :
    ∀ t ∈ ts, t < Size := by
  induction ts with
  | nil => simp
  | cons t ts ih =>
    unfold nextStep at h
    cases hr : nextStep ts Size with
    | none =>
      rw [hr] at h
      by_cases hst : Size ≤ t
      · simp [hst] at h
      · intro u hu
        rcases List.mem_cons.1 hu with rfl | hu
        · exact not_le.1 hst
        · exact ih hr u hu
    | some c =>
      rw [hr] at h
      by_cases hc : Size ≤ t ∧ t < c <;> simp [hc] at h

theorem nextStep_of_step {ts : List Nat} {Size b : Nat} (h : nextStep ts Size = some b) :
    nextStep ts b = some b := by
  obtain ⟨hb, _, _⟩ := nextStep_some h
  cases hr : nextStep ts b with
  | none => exact absurd (nextStep_none hr b hb) (lt_irrefl _)
  | some c =>
    obtain ⟨_, hbc, hmin⟩ := nextStep_some hr
    have : c ≤ b := hmin b hb le_rfl
    rw [le_antisymm this hbc]

theorem le_QuantizeSize (T : SizeClassTable) (Size Alignment : Nat) :
    Size ≤ QuantizeSize T Size Alignment := by
  unfold QuantizeSize
  cases h : nextStep (T Alignment) Size with
  | none => simp
  | some b => simpa using (nextStep_some h).2.1

theorem QuantizeSize_idem (T : SizeClassTable) (Size Alignment : Nat) :
    QuantizeSize T (QuantizeSize T Size Alignment) Alignment = QuantizeSize T Size Alignment := by
  unfold QuantizeSize
  cases h : nextStep (T Alignment) Size with
  | none => simp [h]
  | some b => simp [nextStep_of_step h]

/-! ### Placement -/

theorem dvd_Align (x a : Nat) : a ∣ Align x a := Nat.dvd_mul_left _ _

theorem le_Align (x : Nat) {a : Nat} (ha : 0 < a) : x ≤ Align x a := by
  unfold Align
  have h1 := Nat.div_add_mod (x + a - 1) a
  have h2 := Nat.mod_lt (x + a - 1) ha
  rw [Nat.mul_comm] at h1
  generalize (x + a - 1) / a * a = y at h1 ⊢
  omega

theorem resolveAlignment_pos (Size Alignment : Nat) : 0 < resolveAlignment Size Alignment := by
  unfold resolveAlignment MIN_ALIGNMENT
  split_ifs <;> omega

theorem one_le_highWater (bs : List AllocatedBlock) : 1 ≤ highWater bs := by
  induction bs with
  | nil => exact le_rfl
  | cons b bs ih => exact le_trans ih (le_max_right _ _)

theorem address_lt_highWater {bs : List AllocatedBlock} {b : AllocatedBlock} (hb : b ∈ bs) :
    b.Address < highWater bs := by
  induction bs with
  | nil => simp at hb
  | cons c cs ih =>
    rcases List.mem_cons.1 hb with rfl | hb
    · exact lt_of_lt_of_le (Nat.lt_succ_of_le (Nat.le_add_right _ _)) (le_max_left _ _)
    · exact lt_of_lt_of_le (ih hb) (le_max_right _ _)

/-- The address `Allocate` returns is not null and differs from every live address. -/
theorem Allocate_fresh (T : SizeClassTable) (s : Subsystem) (Size Alignment : Nat) :
    (Allocate T s Size Alignment).1 ≠ 0 ∧
      ∀ b ∈ s.Blocks, b.Address ≠ (Allocate T s Size Alignment).1 := by
  have hle := le_Align (highWater s.Blocks) (resolveAlignment_pos Size Alignment)
  have h1 := one_le_highWater s.Blocks
  refine ⟨?_, ?_⟩
  · exact Nat.pos_iff_ne_zero.1 (lt_of_lt_of_le h1 hle)
  · intro b hb
    exact Nat.ne_of_lt (lt_of_lt_of_le (address_lt_highWater hb) hle)

/-- Releasing the block just allocated gives back the live blocks there were before. -/
theorem Release_Allocate (T : SizeClassTable) (s : Subsystem) (Size Alignment : Nat) :
    Release (Allocate T s Size Alignment).2 (Allocate T s Size Alignment).1 = s := by
  obtain ⟨h0, hfresh⟩ := Allocate_fresh T s Size Alignment
  unfold Release
  rw [if_neg h0]
  have hkeep : s.Blocks.filter
      (fun b => decide (b.Address ≠ (Allocate T s Size Alignment).1)) = s.Blocks := by
    rw [List.filter_eq_self]
    intro b hb
    simpa using hfresh b hb
  cases s with
  | mk Bytes Blocks =>
    simp only [Allocate] at hkeep hfresh ⊢
    simpa [List.filter_cons, hkeep] using hfresh

end MemorySubsystem

end STEngine

/-! ## Concrete runs -/

namespace STEngine

theorem run_Malloc_20 :
    (FMemory.Malloc (subsystemHandler idleCRuntime exampleTable) 20 DEFAULT_ALIGNMENT
      (Machine.start emptySubsystem)).1 = 16 := by decide

theorem run_Malloc_4_after_20 :
    (FMemory.Malloc (subsystemHandler idleCRuntime exampleTable) 4 DEFAULT_ALIGNMENT
      (FMemory.Malloc (subsystemHandler idleCRuntime exampleTable) 20 DEFAULT_ALIGNMENT
        (Machine.start emptySubsystem)).2).1 = 56 := by decide

theorem run_new_delete_calls :
    (GUIControlledConstruction.operatorDelete (subsystemHandler idleCRuntime exampleTable) 16
      (GUIControlledConstruction.operatorNew (subsystemHandler idleCRuntime exampleTable) 20
        (Machine.start emptySubsystem)).2).2.Calls = [.Malloc 20 0, .Free 16] := by decide

theorem run_QuantizeSize :
    MemorySubsystem.QuantizeSize exampleTable 20 0 = 32
    ∧ MemorySubsystem.QuantizeSize exampleTable 32 0 = 32
    ∧ MemorySubsystem.QuantizeSize exampleTable 100 0 = 100 := by decide

theorem run_Memcpy :
    (FMemory.Memcpy (subsystemHandler idleCRuntime exampleTable) 8 0 4
      (Machine.start { emptySubsystem with Bytes := fun a => a + 1 })).2.State.Bytes 10 = 3 := by
  decide

theorem run_Platform_h_no_flag : Platform_h noDefines = .error "Unknown Compiler" := rfl

theorem run_Platform_h_mac :
    Platform_h { noDefines with PLATFORM_MAC := some 1, PLATFORM_APPLE := some 1,
                                PLATFORM_LINUX := some 1 }
      = .ok [.Angle "stddef.h", .Quoted "Mac/MacPlatform.h"] := rfl

theorem run_Platform_h_ps4_before_xboxone :
    selectedByPlatform_h { noDefines with PLATFORM_XBOXONE := some 1, PLATFORM_PS4 := some (-1) }
      = .ok ["PS4/PS4Platform.h"] := rfl

end STEngine

/-! ## The claims -/

namespace STEngine

open GUIControlledConstruction MemorySubsystem

/-- Claim C1: for every requested size `n`, `GUIControlledConstruction::operator new(n)` is
exactly the call `FMemory::Malloc(n, DEFAULT_ALIGNMENT)`: under every implementation of the
called functions and from every machine, it returns what that call returns, leaves the state
that call leaves, and adds to the call log the single entry `Malloc n 0` (size unchanged,
alignment the sentinel `0`), so neither `::malloc` nor any other allocator is called. -/
theorem operatorNew_is_Malloc_default {σ : Type} (h : Handler σ) (m : Machine σ) (n : Nat) :
    operatorNew h n m = FMemory.Malloc h n DEFAULT_ALIGNMENT m
    ∧ DEFAULT_ALIGNMENT = 0
    ∧ (operatorNew h n m).1 = (h (.Malloc n 0) m.State).1
    ∧ (operatorNew h n m).2.State = (h (.Malloc n 0) m.State).2
    ∧ (operatorNew h n m).2.Calls = m.Calls ++ [.Malloc n 0] :=
  ⟨rfl, rfl, rfl, rfl, rfl⟩

/-- Claim C2: for every pointer `p`, `GUIControlledConstruction::operator delete(p)` makes
the single call `FMemory::Free(p)`; and in the memory subsystem, for every state and size
`n`, `operator delete(operator new(n))` logs exactly `Malloc n 0` followed by one `Free` of
the address `operator new` returned, that address is live in between and was not live
before, and afterwards the live blocks (and the bytes of memory) are as before the pair. -/
theorem operatorDelete_releases_what_operatorNew_obtained :
    (∀ (σ : Type) (h : Handler σ) (m : Machine σ) (p : Ptr),
      operatorDelete h p m =
        ((), { Calls := m.Calls ++ [.Free p], State := (h (.Free p) m.State).2 }))
    ∧ (∀ (crt : CRuntime) (T : SizeClassTable) (m : Machine Subsystem) (n : Nat),
        (operatorDelete (subsystemHandler crt T)
            (operatorNew (subsystemHandler crt T) n m).1
            (operatorNew (subsystemHandler crt T) n m).2).2.Calls
          = m.Calls ++ [.Malloc n 0, .Free (operatorNew (subsystemHandler crt T) n m).1]
        ∧ (operatorNew (subsystemHandler crt T) n m).1
            ∈ liveAddresses (operatorNew (subsystemHandler crt T) n m).2.State
        ∧ (operatorNew (subsystemHandler crt T) n m).1 ∉ liveAddresses m.State
        ∧ (operatorDelete (subsystemHandler crt T)
            (operatorNew (subsystemHandler crt T) n m).1
            (operatorNew (subsystemHandler crt T) n m).2).2.State.Blocks = m.State.Blocks
        ∧ (operatorDelete (subsystemHandler crt T)
            (operatorNew (subsystemHandler crt T) n m).1
            (operatorNew (subsystemHandler crt T) n m).2).2.State.Bytes = m.State.Bytes) := by
  refine ⟨fun σ h m p => rfl, ?_⟩
  intro crt T m n
  have hrel := Release_Allocate T m.State n DEFAULT_ALIGNMENT
  have hfresh := (Allocate_fresh T m.State n DEFAULT_ALIGNMENT).2
  refine ⟨?_, ?_, ?_, ?_, ?_⟩
  · simp [operatorDelete, operatorNew, FMemory.Free, FMemory.Malloc, callOut,
      DEFAULT_ALIGNMENT]
  · simp [operatorNew, FMemory.Malloc, callOut, subsystemHandler, liveAddresses, Allocate]
  · intro hmem
    obtain ⟨b, hb, hbe⟩ := List.mem_map.1 hmem
    exact hfresh b hb hbe
  · exact congrArg Subsystem.Blocks hrel
  · exact congrArg Subsystem.Bytes hrel

/-- Claim C3: in the memory subsystem, for every size `S` (and every state and step table)
the address `FMemory::Malloc(S, DEFAULT_ALIGNMENT)` returns is not null and is divisible by
16 when `S ≥ 16` and by `MIN_ALIGNMENT = 8` when `S < 16`; in particular `Malloc(20)` is
16-byte aligned and `Malloc(4)` is 8-byte aligned. -/
theorem Malloc_default_alignment (crt : CRuntime) (T : SizeClassTable)
    (m : Machine Subsystem) (S : Nat) :
    (if 16 ≤ S then 16 else MIN_ALIGNMENT)
        ∣ (FMemory.Malloc (subsystemHandler crt T) S DEFAULT_ALIGNMENT m).1
    ∧ (FMemory.Malloc (subsystemHandler crt T) S DEFAULT_ALIGNMENT m).1 ≠ 0
    ∧ MIN_ALIGNMENT = 8
    ∧ 16 ∣ (FMemory.Malloc (subsystemHandler crt T) 20 DEFAULT_ALIGNMENT m).1
    ∧ 8 ∣ (FMemory.Malloc (subsystemHandler crt T) 4 DEFAULT_ALIGNMENT m).1 := by
  have key : ∀ S', resolveAlignment S' DEFAULT_ALIGNMENT
      ∣ (FMemory.Malloc (subsystemHandler crt T) S' DEFAULT_ALIGNMENT m).1 :=
    fun S' => dvd_Align _ _
  refine ⟨?_, (Allocate_fresh T m.State S DEFAULT_ALIGNMENT).1, rfl, ?_, ?_⟩
  · simpa [resolveAlignment] using key S
  · simpa [resolveAlignment] using key 20
  · simpa [resolveAlignment, MIN_ALIGNMENT] using key 4

/-- Claim C4: in the memory subsystem, for every size `S` (so for every `S` in `[0, 2^20]`),
`FMemory::GetAllocSize(FMemory::Malloc(S))` is the usable size recorded for the block, which
is the quantized size of `S`, and it is never smaller than `S`. -/
theorem GetAllocSize_Malloc_ge (crt : CRuntime) (T : SizeClassTable)
    (m : Machine Subsystem) (S : Nat) :
    S ≤ (FMemory.GetAllocSize (subsystemHandler crt T)
          (FMemory.Malloc (subsystemHandler crt T) S DEFAULT_ALIGNMENT m).1
          (FMemory.Malloc (subsystemHandler crt T) S DEFAULT_ALIGNMENT m).2).1
    ∧ (FMemory.GetAllocSize (subsystemHandler crt T)
          (FMemory.Malloc (subsystemHandler crt T) S DEFAULT_ALIGNMENT m).1
          (FMemory.Malloc (subsystemHandler crt T) S DEFAULT_ALIGNMENT m).2).1
        = QuantizeSize T S DEFAULT_ALIGNMENT := by
  have hq : (FMemory.GetAllocSize (subsystemHandler crt T)
          (FMemory.Malloc (subsystemHandler crt T) S DEFAULT_ALIGNMENT m).1
          (FMemory.Malloc (subsystemHandler crt T) S DEFAULT_ALIGNMENT m).2).1
        = QuantizeSize T S DEFAULT_ALIGNMENT := by
    simp [FMemory.GetAllocSize, FMemory.Malloc, callOut, subsystemHandler, QuerySize, Allocate]
  exact ⟨hq ▸ le_QuantizeSize T S DEFAULT_ALIGNMENT, hq⟩

/-- Claim C5: in the memory subsystem, for every size `S`, alignment `A` and step table,
quantization is idempotent: `MallocQuantizeSize(MallocQuantizeSize(S, A), A)` equals
`MallocQuantizeSize(S, A)`; the call leaves the state of the subsystem as it was. -/
theorem MallocQuantizeSize_idempotent (crt : CRuntime) (T : SizeClassTable)
    (m : Machine Subsystem) (S A : Nat) :
    (FMemory.MallocQuantizeSize (subsystemHandler crt T)
        (FMemory.MallocQuantizeSize (subsystemHandler crt T) S A m).1 A
        (FMemory.MallocQuantizeSize (subsystemHandler crt T) S A m).2).1
      = (FMemory.MallocQuantizeSize (subsystemHandler crt T) S A m).1
    ∧ (FMemory.MallocQuantizeSize (subsystemHandler crt T) S A m).2.State = m.State :=
  ⟨QuantizeSize_idem T S A, rfl⟩

/-- Claim C6: Zero is Fill with byte value 0.  With the platform backend of the memory
subsystem, for every buffer `Dest` and count `N`, `FMemory::Memzero(Dest, N)` returns the
same pointer and leaves the same state as `FMemory::Memset(Dest, 0, N)`; and under every
implementation of the called functions, for every object (address and `sizeof`),
`FMemory::MemZero(x)` is the same run as `FMemory::MemSet(x, 0)`. -/
theorem Memzero_is_Memset_zero :
    (∀ (crt : CRuntime) (T : SizeClassTable) (m : Machine Subsystem) (Dest : Ptr) (N : Nat),
      (FMemory.Memzero (subsystemHandler crt T) Dest N m).1
          = (FMemory.Memset (subsystemHandler crt T) Dest 0 N m).1
      ∧ (FMemory.Memzero (subsystemHandler crt T) Dest N m).2.State
          = (FMemory.Memset (subsystemHandler crt T) Dest 0 N m).2.State)
    ∧ (∀ (σ : Type) (h : Handler σ) (m : Machine σ) (addrX sizeofT : Nat),
      FMemory.MemZero h addrX sizeofT m = FMemory.MemSet h addrX sizeofT 0 m) :=
  ⟨fun _ _ _ _ _ => ⟨rfl, rfl⟩, fun _ _ _ _ _ => rfl⟩

/-- Claim C7: with the platform backend of the memory subsystem, for all buffers `Dest`,
`Src` and every count `N` (in particular for valid, non-overlapping ones),
`FMemory::BigBlockMemcpy` and `FMemory::StreamingMemcpy` each return the same pointer and
leave the same state as `FMemory::Memcpy(Dest, Src, N)`. -/
theorem BigBlockMemcpy_StreamingMemcpy_as_Memcpy (crt : CRuntime) (T : SizeClassTable)
    (m : Machine Subsystem) (Dest Src : Ptr) (N : Nat) :
    ((FMemory.BigBlockMemcpy (subsystemHandler crt T) Dest Src N m).1
        = (FMemory.Memcpy (subsystemHandler crt T) Dest Src N m).1
      ∧ (FMemory.BigBlockMemcpy (subsystemHandler crt T) Dest Src N m).2.State
        = (FMemory.Memcpy (subsystemHandler crt T) Dest Src N m).2.State)
    ∧ ((FMemory.StreamingMemcpy (subsystemHandler crt T) Dest Src N m).1
        = (FMemory.Memcpy (subsystemHandler crt T) Dest Src N m).1
      ∧ (FMemory.StreamingMemcpy (subsystemHandler crt T) Dest Src N m).2.State
        = (FMemory.Memcpy (subsystemHandler crt T) Dest Src N m).2.State) :=
  ⟨⟨rfl, rfl⟩, ⟨rfl, rfl⟩⟩

/-- Claim C8: the copy-assignment operator of `GUIControlledConstruction` is private, hence
not callable from outside the class, and for every pair of instances its body makes no call
and leaves the whole machine state, so both the target and the source, unchanged. -/
theorem operatorAssign_private_and_inert :
    accessOf .OperatorAssign = some .Private
    ∧ callableFromOutside .OperatorAssign = false
    ∧ (∀ (σ : Type) (m : Machine σ) (This Other : Ptr),
        operatorAssign This Other m = ((), m)) :=
  ⟨by decide, by decide, fun _ _ _ _ => rfl⟩

/-- Claim C9: under every implementation of the called functions and for every argument
tuple, each of `FMemory::Memmove`, `Memcmp`, `Memset`, `Memzero`, `Memcpy`,
`BigBlockMemcpy`, `StreamingMemcpy` and `Memswap` logs exactly one call, that of the
`FPlatformMemory` function of the same name with the same arguments in the same order,
returns that call's result and leaves the state that call leaves. -/
theorem FMemory_wrappers_delegate {σ : Type} (h : Handler σ) (m : Machine σ)
    (a b : Ptr) (n : Nat) (ch : Nat) :
    FMemory.Memmove h a b n m =
        ((h (.PlatformMemmove a b n) m.State).1,
          { Calls := m.Calls ++ [.PlatformMemmove a b n],
            State := (h (.PlatformMemmove a b n) m.State).2 })
    ∧ FMemory.Memcmp h a b n m =
        ((h (.PlatformMemcmp a b n) m.State).1,
          { Calls := m.Calls ++ [.PlatformMemcmp a b n],
            State := (h (.PlatformMemcmp a b n) m.State).2 })
    ∧ FMemory.Memset h a ch n m =
        ((h (.PlatformMemset a ch n) m.State).1,
          { Calls := m.Calls ++ [.PlatformMemset a ch n],
            State := (h (.PlatformMemset a ch n) m.State).2 })
    ∧ FMemory.Memzero h a n m =
        ((h (.PlatformMemzero a n) m.State).1,
          { Calls := m.Calls ++ [.PlatformMemzero a n],
            State := (h (.PlatformMemzero a n) m.State).2 })
    ∧ FMemory.Memcpy h a b n m =
        ((h (.PlatformMemcpy a b n) m.State).1,
          { Calls := m.Calls ++ [.PlatformMemcpy a b n],
            State := (h (.PlatformMemcpy a b n) m.State).2 })
    ∧ FMemory.BigBlockMemcpy h a b n m =
        ((h (.PlatformBigBlockMemcpy a b n) m.State).1,
          { Calls := m.Calls ++ [.PlatformBigBlockMemcpy a b n],
            State := (h (.PlatformBigBlockMemcpy a b n) m.State).2 })
    ∧ FMemory.StreamingMemcpy h a b n m =
        ((h (.PlatformStreamingMemcpy a b n) m.State).1,
          { Calls := m.Calls ++ [.PlatformStreamingMemcpy a b n],
            State := (h (.PlatformStreamingMemcpy a b n) m.State).2 })
    ∧ FMemory.Memswap h a b n m =
        ((h (.PlatformMemswap a b n) m.State).1,
          { Calls := m.Calls ++ [.PlatformMemswap a b n],
            State := (h (.PlatformMemswap a b n) m.State).2 }) :=
  ⟨rfl, rfl, rfl, rfl, rfl, rfl, rfl, rfl⟩

/-- Claim C10: for every assignment of the platform flags (an undefined flag counts as 0),
the platform headers `Platform.h` includes are exactly the one header of the first non-zero
flag in the order WINDOWS, PS4, XBOXONE, MAC, IOS, ANDROID, WINRT_ARM, WINRT, HTML5, LINUX;
the build is rejected with "Unknown Compiler" if and only if all ten flags are 0; and the
values of PLATFORM_APPLE, PLATFORM_ANDROIDGL4 and PLATFORM_ANDROIDES31 never change which
platform header is selected, nor whether the build is rejected. -/
theorem Platform_h_selects_first_nonzero_flag (d : PlatformDefines) :
    selectedByPlatform_h d = selectedBySpec d
    ∧ (selectedByPlatform_h d = .error "Unknown Compiler" ∨
        ∃ header, selectedByPlatform_h d = .ok [header])
    ∧ (Platform_h d = .error "Unknown Compiler" ↔
        (d.PLATFORM_WINDOWS.getD 0 = 0 ∧ d.PLATFORM_PS4.getD 0 = 0 ∧
         d.PLATFORM_XBOXONE.getD 0 = 0 ∧ d.PLATFORM_MAC.getD 0 = 0 ∧
         d.PLATFORM_IOS.getD 0 = 0 ∧ d.PLATFORM_ANDROID.getD 0 = 0 ∧
         d.PLATFORM_WINRT_ARM.getD 0 = 0 ∧ d.PLATFORM_WINRT.getD 0 = 0 ∧
         d.PLATFORM_HTML5.getD 0 = 0 ∧ d.PLATFORM_LINUX.getD 0 = 0))
    ∧ (∀ apple gl4 es31 : Option Int,
        selectedByPlatform_h
          { d with PLATFORM_APPLE := apple, PLATFORM_ANDROIDGL4 := gl4,
                   PLATFORM_ANDROIDES31 := es31 } = selectedByPlatform_h d) := by
  refine ⟨selectedByPlatform_h_eq_spec d, ?_, ?_, ?_⟩
  · rw [selectedByPlatform_h_eq_spec]
    unfold selectedBySpec
    cases firstNonZero (selectionOrder d) with
    | none => exact Or.inl rfl
    | some header => exact Or.inr ⟨header, rfl⟩
  · rw [Platform_h_error_iff, selectedByPlatform_h_eq_spec, selectedBySpec_error_iff,
      firstNonZero_eq_none_iff]
    simp [selectionOrder]
  · intro apple gl4 es31
    rw [selectedByPlatform_h_eq_spec, selectedByPlatform_h_eq_spec]
    rfl

end STEngine
